import Mathlib

set_option maxRecDepth 40000

/-!
Verification of the ID3 tag detection-and-removal engine in
`util/strip_mp3_metadata.py`.

A file's content is modelled as a `List Nat` of byte values.  Each Python
function of the engine is embedded as a Lean function of the same name:

* `synchsafe_to_int` folds the low 7 bits of each input byte.
* `detect_id3v2` inspects the first 10 bytes and the file length.
* `detect_id3v1` inspects the 3 marker bytes of the last-128-byte window.
* `strip_id3v2` streams the bytes from the tag-size offset onward through a
  chunked copy loop (`copyLoop`, 1 MiB chunks, as the source does) into the
  replacement content.
* `strip_id3v1` re-checks the current length and truncates 128 bytes.
* `process_file` combines the strips; `scanAndStrip` is scan-then-strip.

For claims about crash safety and attribute restoration, `processRun` embeds
`process_file` together with the mutations of `strip_id3v2` / `strip_id3v1`
as a step-indexed run over a `FileState` (content, permission bits,
timestamps).  The fallible primitive operations are numbered in execution
order (0 stat, 1 open source, 2 create temp, 3 copy loop, 4 replace,
5 chmod, 6 open for truncate, 7 truncate, 8 utime) and a fault can be
injected at any one of them; the resulting disk state, leftover-temp flag
and outcome (error or changed-result) are computed faithfully to the
Python control flow, where the `finally` block of `strip_id3v2` deletes a
created temporary file on every error path before `os.replace` succeeded.
-/

/-- Convert a 4-byte synchsafe integer to a regular int
(`synchsafe_to_int` in the source): fold `value = (value << 7) | (byte & 0x7F)`
over the bytes. -/
def synchsafe_to_int (data : List Nat) : Nat :=
  data.foldl (fun value byte => (value <<< 7) ||| (byte &&& 0x7F)) 0

/-- Leading-container detection (`detect_id3v2` in the source).  Reads the
first 10 bytes; requires the `ID3` marker; computes the total tag size from
the synchsafe body size at bytes 6..9 plus 10 for the header plus 10 more
when the footer flag (bit 0x10 of byte 5) is set; a size not strictly below
the file length is treated as a corrupt tag (reported absent). -/
def detect_id3v2 (c : List Nat) : Bool × Nat :=
  let header := c.take 10
  if header.length < 10 ∨ header.take 3 ≠ [73, 68, 51] then (false, 0)
  else
    let flags := header.getD 5 0
    let tag_body_size := synchsafe_to_int ((header.drop 6).take 4)
    let tag_size := tag_body_size + 10 + (if flags &&& 0x10 ≠ 0 then 10 else 0)
    if c.length ≤ tag_size then (false, 0)
    else (true, tag_size)

/-- Trailing-container detection (`detect_id3v1` in the source): true when
the file holds at least 128 bytes and the first 3 bytes of the last-128-byte
window are the `TAG` marker.  A file shorter than 128 bytes makes the
`seek(-128, SEEK_END)` fail, which the source catches and maps to `False`. -/
def detect_id3v1 (c : List Nat) : Bool :=
  if c.length < 128 then false
  else decide ((c.drop (c.length - 128)).take 3 = [84, 65, 71])

/-- Run of `detect_id3v1` with a possible I/O fault: the whole body of the
source function sits under `try ... except OSError: return False`, so any
failing seek or read yields `false` instead of an error. -/
def detect_id3v1_run (c : List Nat) (ioFail : Bool) : Bool :=
  if ioFail then false else detect_id3v1 c

/-- The copy loop of `strip_id3v2`: repeatedly read a chunk of up to
1 MiB from the remaining source bytes and append it to the accumulator,
stopping on an empty read.  The Python loop needs no fuel; here the fuel
argument bounds the number of iterations and any fuel at least the source
length suffices. -/
def copyLoop : Nat → List Nat → List Nat → List Nat
  | 0, _, acc => acc
  | fuel + 1, src, acc =>
    let chunk := src.take 1048576
    if chunk.isEmpty then acc
    else copyLoop fuel (src.drop 1048576) (acc ++ chunk)

/-- Content produced by `strip_id3v2` in the source: seek to `tag_size` in
the original and stream the rest through the chunked copy loop into the
temporary file that then replaces the original. -/
def strip_id3v2 (c : List Nat) (tag_size : Nat) : List Nat :=
  copyLoop (c.length + 1) (c.drop tag_size) []

/-- Content produced by `strip_id3v1` in the source: re-check the current
length and, when it is at least 128, truncate the last 128 bytes. -/
def strip_id3v1 (c : List Nat) : List Nat :=
  if 128 ≤ c.length then c.take (c.length - 128) else c

/-- Content-level view of `process_file` in the source: when either tag was
detected, remove the leading container first (with the detected size), then
the trailing one, and report that a change was made. -/
def process_file (c : List Nat) (has_v2 : Bool) (v2_size : Nat)
    (has_v1 : Bool) : List Nat × Bool :=
  if ¬ (has_v2 || has_v1) then (c, false)
  else
    let c1 := if has_v2 then strip_id3v2 c v2_size else c
    let c2 := if has_v1 then strip_id3v1 c1 else c1
    (c2, true)

/-- Scan then strip, as the orchestrator drives the engine per file. -/
def scanAndStrip (c : List Nat) : List Nat :=
  (process_file c (detect_id3v2 c).1 (detect_id3v2 c).2 (detect_id3v1 c)).1

/-- The total leading-container size as the format declares it: the
synchsafe body size at bytes 6..9, plus the 10 header bytes, plus 10 footer
bytes when bit 0x10 of the flags byte (byte 5) is set. -/
def declared_total (c : List Nat) : Nat :=
  synchsafe_to_int ((c.drop 6).take 4) + 10
    + (if (c.getD 5 0) &&& 0x10 ≠ 0 then 10 else 0)

/- Helper lemmas. -/

theorem synchsafe_step (v b : Nat) :
    (v <<< 7) ||| (b &&& 0x7F) = v * 128 + (b &&& 0x7F) := by
  have hb : b &&& 0x7F < 2 ^ 7 :=
    Nat.and_lt_two_pow b (by norm_num)
  rw [Nat.shiftLeft_eq, Nat.mul_comm v (2 ^ 7), ← Nat.mul_add_lt_is_or hb v]

theorem copyLoop_eq_append (fuel : Nat) :
    ∀ (src acc : List Nat), src.length ≤ fuel →
      copyLoop fuel src acc = acc ++ src := by
  induction fuel with
  | zero =>
    intro src acc h
    have : src = [] := List.eq_nil_of_length_eq_zero (Nat.le_zero.mp h)
    simp [copyLoop, this]
  | succ n ih =>
    intro src acc h
    by_cases hs : src = []
    · simp [copyLoop, hs]
    · have hne : ¬ (src.take 1048576).isEmpty := by
        simp [List.isEmpty_iff, List.take_eq_nil_iff, hs]
      rw [copyLoop, if_neg hne]
      have hlen : (src.drop 1048576).length ≤ n := by
        have hpos : 0 < src.length := List.length_pos.mpr hs
        simp only [List.length_drop]
        omega
      rw [ih _ _ hlen, List.append_assoc, List.take_append_drop]

theorem strip_id3v2_eq_drop (c : List Nat) (tag_size : Nat) :
    strip_id3v2 c tag_size = c.drop tag_size := by
  unfold strip_id3v2
  rw [copyLoop_eq_append]
  · simp
  · simp only [List.length_drop]
    omega

theorem detect_id3v2_size_lt {c : List Nat} {s : Nat}
    (h : detect_id3v2 c = (true, s)) : s < c.length := by
  simp only [detect_id3v2] at h
  split at h
  · exact absurd h (by simp)
  · split at h <;> split at h
    · exact absurd h (by simp)
    · rw [Prod.mk.injEq] at h
      obtain ⟨-, h⟩ := h
      omega
    · exact absurd h (by simp)
    · rw [Prod.mk.injEq] at h
      obtain ⟨-, h⟩ := h
      omega

/-- C3: for every 4-byte input the synchsafe decoder returns the big-endian
sum of the low 7 bits of each byte, weighted by `2 ^ (7 * (3 - i))`, and the
result is always below `2 ^ 28`. -/
theorem synchsafe_correct (b0 b1 b2 b3 : Nat) :
    synchsafe_to_int [b0, b1, b2, b3]
      = (b0 &&& 0x7F) * 2 ^ 21 + (b1 &&& 0x7F) * 2 ^ 14
        + (b2 &&& 0x7F) * 2 ^ 7 + (b3 &&& 0x7F)
    ∧ synchsafe_to_int [b0, b1, b2, b3] < 2 ^ 28 := by
  have h0 : b0 &&& 0x7F ≤ 0x7F := Nat.and_le_right
  have h1 : b1 &&& 0x7F ≤ 0x7F := Nat.and_le_right
  have h2 : b2 &&& 0x7F ≤ 0x7F := Nat.and_le_right
  have h3 : b3 &&& 0x7F ≤ 0x7F := Nat.and_le_right
  have heq : synchsafe_to_int [b0, b1, b2, b3]
      = (b0 &&& 0x7F) * 2 ^ 21 + (b1 &&& 0x7F) * 2 ^ 14
        + (b2 &&& 0x7F) * 2 ^ 7 + (b3 &&& 0x7F) := by
    simp only [synchsafe_to_int, List.foldl_cons, List.foldl_nil,
      synchsafe_step]
    ring
  refine ⟨heq, ?_⟩
  rw [heq]
  omega

theorem detect_id3v2_eq (c : List Nat) :
    detect_id3v2 c =
      if c.length < 10 ∨ c.take 3 ≠ [73, 68, 51] then (false, 0)
      else if c.length ≤ declared_total c then (false, 0)
      else (true, declared_total c) := by
  have htake3 : (c.take 10).take 3 = c.take 3 := by
    rw [List.take_take]
    norm_num
  have hget : (c.take 10).getD 5 0 = c.getD 5 0 := by
    simp only [List.getD_eq_getElem?_getD,
      List.getElem?_take_of_lt (show (5 : Nat) < 10 by norm_num)]
  have hbody : ((c.take 10).drop 6).take 4 = (c.drop 6).take 4 := by
    rw [List.drop_take]
    norm_num [List.take_take]
  have hlen : ((c.take 10).length < 10) ↔ c.length < 10 := by
    rw [List.length_take]
    omega
  simp only [detect_id3v2, declared_total, htake3, hget, hbody, hlen]

/-- C4: leading-container detection reports a tag exactly when the file has
at least 10 bytes, starts with the `ID3` marker, and the declared total size
(10 header bytes + synchsafe body size + optional 10-byte footer) is
strictly below the file length; the reported size is then exactly that
declared total. -/
theorem detect_id3v2_spec (c : List Nat) :
    ((detect_id3v2 c).1 = true ↔
      10 ≤ c.length ∧ c.take 3 = [73, 68, 51] ∧ declared_total c < c.length)
    ∧ ((detect_id3v2 c).1 = true → (detect_id3v2 c).2 = declared_total c) := by
  rw [detect_id3v2_eq]
  by_cases h1 : c.length < 10 ∨ c.take 3 ≠ [73, 68, 51]
  · rw [if_pos h1]
    constructor
    · simp only [Bool.false_eq_true, false_iff]
      rintro ⟨ha, hb, -⟩
      rcases h1 with h1 | h1
      · omega
      · exact h1 hb
    · intro h
      exact absurd h (by simp)
  · rw [if_neg h1]
    push_neg at h1
    by_cases h2 : c.length ≤ declared_total c
    · rw [if_pos h2]
      constructor
      · simp only [Bool.false_eq_true, false_iff]
        rintro ⟨-, -, hc⟩
        omega
      · intro h
        exact absurd h (by simp)
    · rw [if_neg h2]
      refine ⟨?_, fun _ => rfl⟩
      simp only [true_iff]
      exact ⟨by omega, h1.2, by omega⟩

/-- C4 witness: a 12-byte file with an `ID3` marker, zero flags and
synchsafe body size 1 is detected with total size 11. -/
theorem detect_id3v2_spec_witness :
    (detect_id3v2 [73, 68, 51, 4, 0, 0, 0, 0, 0, 1, 7, 170]).2
      = declared_total [73, 68, 51, 4, 0, 0, 0, 0, 0, 1, 7, 170] :=
  (detect_id3v2_spec [73, 68, 51, 4, 0, 0, 0, 0, 0, 1, 7, 170]).2 (by decide)

/-- C6: trailing-container detection (with its possible I/O fault) returns
true exactly when no fault occurred, the file holds at least 128 bytes, and
the first 3 bytes of the last-128-byte window are the `TAG` marker; a fault
or a short file yields `false` rather than an error. -/
theorem detect_id3v1_spec (c : List Nat) (f : Bool) :
    detect_id3v1_run c f = true ↔
      f = false ∧ 128 ≤ c.length
        ∧ (c.drop (c.length - 128)).take 3 = [84, 65, 71] := by
  unfold detect_id3v1_run detect_id3v1
  cases f
  · simp only [if_neg Bool.false_ne_true, true_and]
    split
    · rename_i hlt
      simp only [Bool.false_eq_true, false_iff]
      rintro ⟨hle, -⟩
      omega
    · rename_i hlt
      have hle : 128 ≤ c.length := by omega
      simp [hle]
  · simp

/-- C2: for a file whose leading container is detected with total size `S`,
the leading strip produces exactly the original bytes from offset `S` to
end-of-file, so the length shrinks by exactly `S`. -/
theorem strip_leading_exact {c : List Nat} {S : Nat}
    (h : detect_id3v2 c = (true, S)) :
    strip_id3v2 c S = c.drop S ∧ (strip_id3v2 c S).length + S = c.length := by
  have hS := detect_id3v2_size_lt h
  refine ⟨strip_id3v2_eq_drop c S, ?_⟩
  rw [strip_id3v2_eq_drop, List.length_drop]
  omega

/-- C2 witness: the 12-byte tag file is detected with size 11 and the strip
keeps exactly its final byte. -/
theorem strip_leading_exact_witness :
    strip_id3v2 [73, 68, 51, 4, 0, 0, 0, 0, 0, 1, 7, 170] 11
        = List.drop 11 [73, 68, 51, 4, 0, 0, 0, 0, 0, 1, 7, 170]
      ∧ (strip_id3v2 [73, 68, 51, 4, 0, 0, 0, 0, 0, 1, 7, 170] 11).length + 11
        = (List.length [73, 68, 51, 4, 0, 0, 0, 0, 0, 1, 7, 170]) :=
  strip_leading_exact (by decide)

/-- C10: a file of exactly 128 bytes starting with the `TAG` marker is
detected as carrying the trailing container, and the trailing strip
truncates it to the empty file. -/
theorem trailing_whole_file {c : List Nat} (h1 : c.length = 128)
    (h2 : c.take 3 = [84, 65, 71]) :
    detect_id3v1 c = true ∧ strip_id3v1 c = [] := by
  constructor
  · simp [detect_id3v1, h1, h2]
  · simp [strip_id3v1, h1]

/-- C10 witness: the concrete 128-byte file `TAG` followed by 125 zero
bytes. -/
theorem trailing_whole_file_witness :
    detect_id3v1 ([84, 65, 71] ++ List.replicate 125 0) = true
      ∧ strip_id3v1 ([84, 65, 71] ++ List.replicate 125 0) = [] :=
  trailing_whole_file (by decide) (by decide)

/-- C5: a well-formed leading header whose declared total size is at least
the file length is reported absent, and scan-then-strip then changes the
file only by the trailing truncation when a trailing tag exists — the
corrupt leading tag itself is never removed or altered. -/
theorem corrupt_leading_untouched {c : List Nat}
    (h10 : 10 ≤ c.length) (hm : c.take 3 = [73, 68, 51])
    (hbig : c.length ≤ declared_total c) :
    detect_id3v2 c = (false, 0)
    ∧ scanAndStrip c = (if detect_id3v1 c then strip_id3v1 c else c) := by
  have hcond : ¬ (c.length < 10 ∨ c.take 3 ≠ [73, 68, 51]) := by
    push_neg
    exact ⟨by omega, hm⟩
  have hd : detect_id3v2 c = (false, 0) := by
    rw [detect_id3v2_eq, if_neg hcond, if_pos hbig]
  refine ⟨hd, ?_⟩
  unfold scanAndStrip
  rw [hd]
  cases hdv : detect_id3v1 c <;> simp [process_file, hdv]

/-- C5 witness: a 10-byte file that is nothing but an `ID3` header declaring
total size 10 is reported tag-free and survives scan-then-strip unchanged. -/
theorem corrupt_leading_untouched_witness :
    detect_id3v2 [73, 68, 51, 4, 0, 0, 0, 0, 0, 0] = (false, 0)
      ∧ scanAndStrip [73, 68, 51, 4, 0, 0, 0, 0, 0, 0]
        = (if detect_id3v1 [73, 68, 51, 4, 0, 0, 0, 0, 0, 0]
            then strip_id3v1 [73, 68, 51, 4, 0, 0, 0, 0, 0, 0]
            else [73, 68, 51, 4, 0, 0, 0, 0, 0, 0]) :=
  corrupt_leading_untouched (by decide) (by decide) (by decide)

/-- Externally visible state of the target file: its byte content, its
permission bits, and its access and modification timestamps. -/
structure FileState where
  content : List Nat
  mode : Nat
  atime : Nat
  mtime : Nat
deriving DecidableEq

/-- Outcome of one `process_file` run: the final file state, whether a
temporary file was left behind, and `none` for an escalated I/O error or
`some changed` for normal completion. -/
structure RunResult where
  fs : FileState
  tmpLeft : Bool
  result : Option Bool
deriving DecidableEq

/-- Final step of `process_file`: `os.utime` restores the snapshotted
access and modification timestamps (fallible operation number 8). -/
def runFinish (snap cur : FileState) (failAt : Option Nat) : RunResult :=
  if failAt = some 8 then ⟨cur, false, none⟩
  else ⟨{ cur with atime := snap.atime, mtime := snap.mtime }, false, some true⟩

/-- Trailing phase of `process_file`: when a trailing tag was detected,
`strip_id3v1` opens the file (operation 6) and truncates in place
(operation 7, atomic: a failed truncate changes nothing); a successful
truncate removes the last 128 bytes only when the current length allows it
and stamps the modification time with the current clock. -/
def runTrailingPhase (snap cur : FileState) (has_v1 : Bool) (now : Nat)
    (failAt : Option Nat) : RunResult :=
  if has_v1 then
    if failAt = some 6 then ⟨cur, false, none⟩
    else if failAt = some 7 then ⟨cur, false, none⟩
    else
      runFinish snap
        (if 128 ≤ cur.content.length then
          { cur with content := cur.content.take (cur.content.length - 128),
                     mtime := now }
        else cur) failAt
  else runFinish snap cur failAt

/-- Continuation after a successful `os.replace` of the leading container:
the replaced file carries the copied content with the temporary file's own
mode and fresh timestamps; `os.chmod` (operation 5) then re-applies the
snapshotted permission bits, and on its failure the error escalates with
the replacement already committed. -/
def runTrailingAfterLeading (snap : FileState) (stripped : List Nat)
    (has_v1 : Bool) (now : Nat) (failAt : Option Nat) (tmpMode : Nat) :
    RunResult :=
  if failAt = some 5 then ⟨⟨stripped, tmpMode, now, now⟩, false, none⟩
  else runTrailingPhase snap ⟨stripped, snap.mode, now, now⟩ has_v1 now failAt

/-- Step-indexed run of `process_file` with one injected fault.  The
fallible operations in execution order: 0 `os.stat`, then for a detected
leading tag 1 open the source, 2 create the temporary file, 3 the copy
loop, 4 `os.replace`, 5 `os.chmod`; then the trailing phase (6, 7) and the
timestamp restore (8).  Failures at 1–4 leave the original file in place,
and the `finally` block of `strip_id3v2` deletes any created temporary
file, so no run leaves a temporary behind; a successful `os.replace`
installs the copied content with the temporary file's own mode and fresh
timestamps, after which `os.chmod` re-applies the snapshotted mode. -/
def processRun (fs : FileState) (has_v2 : Bool) (v2_size : Nat)
    (has_v1 : Bool) (now tmpMode : Nat) (failAt : Option Nat) : RunResult :=
  if ¬ (has_v2 || has_v1) then ⟨fs, false, some false⟩
  else if failAt = some 0 then ⟨fs, false, none⟩
  else if has_v2 then
    if failAt = some 1 then ⟨fs, false, none⟩
    else if failAt = some 2 then ⟨fs, false, none⟩
    else if failAt = some 3 then ⟨fs, false, none⟩
    else if failAt = some 4 then ⟨fs, false, none⟩
    else
      runTrailingAfterLeading fs (strip_id3v2 fs.content v2_size) has_v1 now
        failAt tmpMode
  else runTrailingPhase fs fs has_v1 now failAt

/-- C1 counterexample: on a 128-byte file carrying only the trailing tag,
the truncation commits and then the timestamp restore (operation 8) fails;
the overall strip escalates an I/O error yet the on-disk content is no
longer the original — the claimed all-or-nothing guarantee does not hold
for failures after a removal has committed. -/
theorem strip_error_partial_mutation_cex :
    detect_id3v2 ([84, 65, 71] ++ List.replicate 125 0) = (false, 0)
    ∧ detect_id3v1 ([84, 65, 71] ++ List.replicate 125 0) = true
    ∧ (processRun ⟨[84, 65, 71] ++ List.replicate 125 0, 420, 111, 222⟩
        false 0 true 999 384 (some 8)).result = none
    ∧ (processRun ⟨[84, 65, 71] ++ List.replicate 125 0, 420, 111, 222⟩
        false 0 true 999 384 (some 8)).fs.content
      ≠ [84, 65, 71] ++ List.replicate 125 0 := by
  decide

/-- C1 (amended): if strip fails with an I/O error at or before the atomic
replace of the leading container (stat, open, temporary-file creation, the
copy loop, or the replace itself — operations 0 to 4), the file state is
byte-for-byte and attribute-for-attribute what it was before the call, and
no temporary file is left behind.  Failures after a container removal has
committed (permission restore, trailing truncation, timestamp restore)
leave the already-committed removals in place. -/
theorem strip_error_preserves_file
    (fs : FileState) (has_v2 : Bool) (v2_size : Nat) (has_v1 : Bool)
    (now tmpMode k : Nat) (hk : k ≤ 4)
    (herr : (processRun fs has_v2 v2_size has_v1 now tmpMode (some k)).result
      = none) :
    (processRun fs has_v2 v2_size has_v1 now tmpMode (some k)).fs = fs
    ∧ (processRun fs has_v2 v2_size has_v1 now tmpMode (some k)).tmpLeft
      = false := by
  interval_cases k <;> cases has_v2 <;> cases has_v1 <;>
    simp_all [processRun, runTrailingAfterLeading, runTrailingPhase,
      runFinish]

/-- C1 witness: failing the initial stat on a small leading-tag file yields
the error with the file intact and no leftover temporary. -/
theorem strip_error_preserves_file_witness :
    (processRun ⟨[1, 2, 3], 7, 8, 9⟩ true 0 false 99 38 (some 0)).fs
      = ⟨[1, 2, 3], 7, 8, 9⟩
    ∧ (processRun ⟨[1, 2, 3], 7, 8, 9⟩ true 0 false 99 38 (some 0)).tmpLeft
      = false :=
  strip_error_preserves_file ⟨[1, 2, 3], 7, 8, 9⟩ true 0 false 99 38 0
    (by decide) (by decide)

theorem runFinish_attrs {snap cur : FileState} {failAt : Option Nat}
    (h : (runFinish snap cur failAt).result = some true) :
    (runFinish snap cur failAt).fs.mode = cur.mode
    ∧ (runFinish snap cur failAt).fs.atime = snap.atime
    ∧ (runFinish snap cur failAt).fs.mtime = snap.mtime := by
  unfold runFinish at h ⊢
  split_ifs at h ⊢ <;> simp_all

theorem runTrailingPhase_attrs {snap cur : FileState} {has_v1 : Bool}
    {now : Nat} {failAt : Option Nat}
    (h : (runTrailingPhase snap cur has_v1 now failAt).result = some true) :
    (runTrailingPhase snap cur has_v1 now failAt).fs.mode = cur.mode
    ∧ (runTrailingPhase snap cur has_v1 now failAt).fs.atime = snap.atime
    ∧ (runTrailingPhase snap cur has_v1 now failAt).fs.mtime = snap.mtime := by
  unfold runTrailingPhase at h ⊢
  split_ifs at h ⊢ <;>
    first
      | exact runFinish_attrs h
      | simpa using runFinish_attrs h
      | simp_all

theorem runTrailingAfterLeading_attrs {snap : FileState}
    {stripped : List Nat} {has_v1 : Bool} {now : Nat} {failAt : Option Nat}
    {tmpMode : Nat}
    (h : (runTrailingAfterLeading snap stripped has_v1 now failAt
      tmpMode).result = some true) :
    (runTrailingAfterLeading snap stripped has_v1 now failAt tmpMode).fs.mode
      = snap.mode
    ∧ (runTrailingAfterLeading snap stripped has_v1 now failAt
        tmpMode).fs.atime = snap.atime
    ∧ (runTrailingAfterLeading snap stripped has_v1 now failAt
        tmpMode).fs.mtime = snap.mtime := by
  unfold runTrailingAfterLeading at h ⊢
  split_ifs at h ⊢
  simpa using runTrailingPhase_attrs h

/-- C9: whenever a run of `process_file` completes normally having mutated
content, the final permission bits, access time and modification time equal
the values snapshotted before any mutation. -/
theorem strip_restores_attributes
    (fs : FileState) (has_v2 : Bool) (v2_size : Nat) (has_v1 : Bool)
    (now tmpMode : Nat) (failAt : Option Nat)
    (hok : (processRun fs has_v2 v2_size has_v1 now tmpMode failAt).result
      = some true) :
    (processRun fs has_v2 v2_size has_v1 now tmpMode failAt).fs.mode
      = fs.mode
    ∧ (processRun fs has_v2 v2_size has_v1 now tmpMode failAt).fs.atime
      = fs.atime
    ∧ (processRun fs has_v2 v2_size has_v1 now tmpMode failAt).fs.mtime
      = fs.mtime := by
  unfold processRun at hok ⊢
  split_ifs at hok ⊢ <;>
    first
      | exact runTrailingAfterLeading_attrs hok
      | exact runTrailingPhase_attrs hok
      | simpa using runTrailingPhase_attrs hok
      | simp_all

/-- C9 witness: a fault-free run on a 128-byte trailing-tag file mutates the
content and restores mode 420, access time 111 and modification time 222. -/
theorem strip_restores_attributes_witness :
    (processRun ⟨[84, 65, 71] ++ List.replicate 125 0, 420, 111, 222⟩
        false 0 true 999 384 none).fs.mode = 420
    ∧ (processRun ⟨[84, 65, 71] ++ List.replicate 125 0, 420, 111, 222⟩
        false 0 true 999 384 none).fs.atime = 111
    ∧ (processRun ⟨[84, 65, 71] ++ List.replicate 125 0, 420, 111, 222⟩
        false 0 true 999 384 none).fs.mtime = 222 :=
  strip_restores_attributes ⟨[84, 65, 71] ++ List.replicate 125 0, 420, 111, 222⟩
    false 0 true 999 384 none (by decide)

/-- C7 counterexample: a 138-byte file whose 20-byte leading tag overlaps
the trailing 128-byte window.  Both containers are detected, but after the
leading strip only 118 bytes remain, the length re-check in `strip_id3v1`
makes the truncation a no-op, and the total reduction is 20 bytes, not
20 + 128. -/
theorem strip_both_reduction_cex :
    detect_id3v2 ([73, 68, 51, 4, 0, 0, 0, 0, 0, 10]
        ++ [84, 65, 71] ++ List.replicate 125 0) = (true, 20)
    ∧ detect_id3v1 ([73, 68, 51, 4, 0, 0, 0, 0, 0, 10]
        ++ [84, 65, 71] ++ List.replicate 125 0) = true
    ∧ ¬ ((scanAndStrip ([73, 68, 51, 4, 0, 0, 0, 0, 0, 10]
          ++ [84, 65, 71] ++ List.replicate 125 0)).length + (20 + 128)
        = ([73, 68, 51, 4, 0, 0, 0, 0, 0, 10]
          ++ [84, 65, 71] ++ List.replicate 125 0).length) := by
  decide

/-- C7 (amended): when both containers are detected and the trailing
128-byte window lies beyond the leading container (leading size + 128 does
not exceed the file length), scan-then-strip removes the leading container
first, then the trailing one, and the length shrinks by exactly
leading size + 128. -/
theorem strip_both_reduction {c : List Nat} {S : Nat}
    (h2 : detect_id3v2 c = (true, S)) (h1 : detect_id3v1 c = true)
    (hroom : S + 128 ≤ c.length) :
    scanAndStrip c = strip_id3v1 (strip_id3v2 c S)
    ∧ (scanAndStrip c).length + (S + 128) = c.length := by
  have hA : scanAndStrip c = strip_id3v1 (strip_id3v2 c S) := by
    unfold scanAndStrip
    rw [h2, h1]
    simp [process_file]
  have hdrop : strip_id3v2 c S = c.drop S := strip_id3v2_eq_drop c S
  have h128 : 128 ≤ (strip_id3v2 c S).length := by
    rw [hdrop, List.length_drop]
    omega
  refine ⟨hA, ?_⟩
  rw [hA, strip_id3v1, if_pos h128, List.length_take, hdrop,
    List.length_drop]
  omega

/-- C7 witness: a 140-byte file with an 11-byte leading tag, one audio
byte, and a full trailing tag strips down to that single byte. -/
theorem strip_both_reduction_witness :
    scanAndStrip ([73, 68, 51, 4, 0, 0, 0, 0, 0, 1] ++ [7, 170]
        ++ [84, 65, 71] ++ List.replicate 125 0)
      = strip_id3v1 (strip_id3v2 ([73, 68, 51, 4, 0, 0, 0, 0, 0, 1]
        ++ [7, 170] ++ [84, 65, 71] ++ List.replicate 125 0) 11)
    ∧ (scanAndStrip ([73, 68, 51, 4, 0, 0, 0, 0, 0, 1] ++ [7, 170]
        ++ [84, 65, 71] ++ List.replicate 125 0)).length + (11 + 128)
      = ([73, 68, 51, 4, 0, 0, 0, 0, 0, 1] ++ [7, 170]
        ++ [84, 65, 71] ++ List.replicate 125 0).length :=
  strip_both_reduction (by decide) (by decide) (by decide)

theorem scanAndStrip_of_none {d : List Nat}
    (h2 : (detect_id3v2 d).1 = false) (h1 : detect_id3v1 d = false) :
    scanAndStrip d = d := by
  unfold scanAndStrip
  rw [h1, h2]
  simp [process_file]

/-- C8 counterexample: a 23-byte file holding two stacked 11-byte leading
tags and one audio byte.  The first scan-then-strip removes only the outer
tag; the second run detects the inner tag and strips again, so twice is not
the same as once. -/
theorem strip_idempotent_cex :
    scanAndStrip (scanAndStrip ([73, 68, 51, 4, 0, 0, 0, 0, 0, 1, 0]
        ++ [73, 68, 51, 4, 0, 0, 0, 0, 0, 1, 0] ++ [170]))
      ≠ scanAndStrip ([73, 68, 51, 4, 0, 0, 0, 0, 0, 1, 0]
        ++ [73, 68, 51, 4, 0, 0, 0, 0, 0, 1, 0] ++ [170]) := by
  decide

/-- C8 (amended): scan-then-strip is idempotent on every file whose first
strip leaves residual content carrying no leading and no trailing
container — the second run then detects nothing and makes no further
change.  (When the residue again starts with a container, as with stacked
tags, the second run strips again.) -/
theorem strip_idempotent {c : List Nat}
    (h2 : (detect_id3v2 (scanAndStrip c)).1 = false)
    (h1 : detect_id3v1 (scanAndStrip c) = false) :
    scanAndStrip (scanAndStrip c) = scanAndStrip c :=
  scanAndStrip_of_none h2 h1

/-- C8 witness: a 12-byte single-tag file strips to one audio byte, on
which a second scan-then-strip changes nothing. -/
theorem strip_idempotent_witness :
    scanAndStrip (scanAndStrip [73, 68, 51, 4, 0, 0, 0, 0, 0, 1, 7, 170])
      = scanAndStrip [73, 68, 51, 4, 0, 0, 0, 0, 0, 1, 7, 170] :=
  strip_idempotent (by decide) (by decide)
